import Mathlib

/-
  Verification of the decoder combinator engine of ts-json-decode
  (source file src/src/index.ts).

  The decoders are pure functions from a raw JavaScript value to a typed
  value; the only side effect is invoking the configured error callback.
  The shallow embedding models a JavaScript value with the inductive
  `JsVal`, and a decode computation with `Res`: the list of error-callback
  invocations it performed (each entry is the message of the Error value
  the callback received, in invocation order), together with either a
  normal result or a thrown exception.  Only the fragment of host
  JavaScript semantics that the library exercises is modelled: string
  coercion of primitives, integral numeric coercion (NaN is `none`),
  strict equality on primitives, and property lookup.
-/

/-- An exception propagating out of a decode call: either a thrown `Error`
carrying a message (as thrown by the default error callback), or a
host-level TypeError raised by a property read on `null`/`undefined`
(recording the property name being read). -/
inductive Exc where
  | err (msg : String)
  | hostTypeError (prop : String)
deriving DecidableEq, Repr

/-- A JavaScript value.  Numbers carry `Option Int`: `none` is NaN (the
library only ever produces or compares integral numbers in the claims
under verification). -/
inductive JsVal where
  | vUndefined
  | vNull
  | vBool (b : Bool)
  | vNum (n : Option Int)
  | vStr (s : String)
  | vArr (xs : List JsVal)
  | vObj (fields : List (String × JsVal))

/-- Result of running a decode computation: the messages passed to the
error callback (in order), and either a value or a propagated exception. -/
inductive Res (α : Type) where
  | ok (calls : List String) (val : α)
  | ex (calls : List String) (exc : Exc)

/-- Sequencing of decode computations: callback invocations accumulate in
order; an exception stops the computation. -/
def Res.bind {α β : Type} : Res α → (α → Res β) → Res β
  | Res.ok cs v, f =>
    match f v with
    | Res.ok cs2 w => Res.ok (cs ++ cs2) w
    | Res.ex cs2 e => Res.ex (cs ++ cs2) e
  | Res.ex cs e, _ => Res.ex cs e

/-- The error-callback invocations a computation performed. -/
def Res.calls {α : Type} : Res α → List String
  | Res.ok cs _ => cs
  | Res.ex cs _ => cs

/-- The behavior of the host-supplied `errorCallback` of `Decode.Config`:
given the message of the Error it receives, it either returns normally
(`none`) or throws (`some e`). -/
def Cb : Type := String → Option Exc

/-- `config.errorCallback(new Error(msg))`: records the invocation, then
either returns or propagates what the callback threw. -/
def callCb (cb : Cb) (msg : String) : Res Unit :=
  match cb msg with
  | none => Res.ok [msg] ()
  | some e => Res.ex [msg] e

/-- The default configuration of `configure()`:
`errorCallback: error => { throw error; }`. -/
def defaultCb : Cb := fun msg => some (Exc.err msg)

mutual

/-- JavaScript `String(v)` coercion (template-literal interpolation). -/
def jsString : JsVal → String
  | JsVal.vUndefined => "undefined"
  | JsVal.vNull => "null"
  | JsVal.vBool b => if b then "true" else "false"
  | JsVal.vNum (some n) => toString n
  | JsVal.vNum none => "NaN"
  | JsVal.vStr s => s
  | JsVal.vArr xs => String.intercalate "," (jsStringList xs)
  | JsVal.vObj _ => "[object Object]"

/-- Array elements under `String`: `null` and `undefined` stringify to the
empty string inside an array join. -/
def jsStringList : List JsVal → List String
  | [] => []
  | JsVal.vNull :: xs => "" :: jsStringList xs
  | JsVal.vUndefined :: xs => "" :: jsStringList xs
  | x :: xs => jsString x :: jsStringList xs

end

/-- `typeof v`. -/
def typeofJs : JsVal → String
  | JsVal.vUndefined => "undefined"
  | JsVal.vNull => "object"
  | JsVal.vBool _ => "boolean"
  | JsVal.vNum _ => "number"
  | JsVal.vStr _ => "string"
  | JsVal.vArr _ => "object"
  | JsVal.vObj _ => "object"

/-- Drop leading and trailing spaces (the whitespace fragment needed by
the inputs under verification). -/
def trimChars (cs : List Char) : List Char :=
  ((cs.dropWhile (fun c => c == ' ')).reverse.dropWhile (fun c => c == ' ')).reverse

/-- Accumulate decimal digits; any non-digit character makes the parse NaN. -/
def parseDigitsAux : List Char → Nat → Option Nat
  | [], acc => some acc
  | c :: cs, acc =>
    if c.isDigit then parseDigitsAux cs (acc * 10 + (c.toNat - 48)) else none

/-- A non-empty all-digit sequence, as a natural number. -/
def parseDigits : List Char → Option Nat
  | [] => none
  | c :: cs => parseDigitsAux (c :: cs) 0

/-- JavaScript `Number(s)` on a string, restricted to the integral
fragment: trimmed-empty is 0, an optional sign followed by decimal digits
is that integer, anything else is NaN (`none`). -/
def strToNumber (s : String) : Option Int :=
  match trimChars s.data with
  | [] => some 0
  | '-' :: rest => Option.map (fun n => -(Int.ofNat n)) (parseDigits rest)
  | '+' :: rest => Option.map (fun n => Int.ofNat n) (parseDigits rest)
  | cs => Option.map (fun n => Int.ofNat n) (parseDigits cs)

/-- JavaScript `Number(v)` coercion; `none` is NaN. -/
def jsToNumber : JsVal → Option Int
  | JsVal.vUndefined => none
  | JsVal.vNull => some 0
  | JsVal.vBool b => some (if b then 1 else 0)
  | JsVal.vNum n => n
  | JsVal.vStr s => strToNumber s
  | JsVal.vArr xs => strToNumber (jsString (JsVal.vArr xs))
  | JsVal.vObj _ => none

/-- JavaScript strict equality `===` on the values the library compares.
NaN is not equal to itself; distinct array/object values compare by
reference and are conservatively unequal (literal values are restricted
to boolean, number and string by the source signature). -/
def jsStrictEq : JsVal → JsVal → Bool
  | JsVal.vUndefined, JsVal.vUndefined => true
  | JsVal.vNull, JsVal.vNull => true
  | JsVal.vBool a, JsVal.vBool b => a == b
  | JsVal.vNum (some a), JsVal.vNum (some b) => a == b
  | JsVal.vStr a, JsVal.vStr b => a == b
  | _, _ => false

/-- `errorFmt` of src/src/index.ts: the default error string formatter.
The `raw` template argument arrives already string-coerced (call sites
pass `jsString raw`, matching template-literal interpolation). -/
def errorFmt (decoderType expected rawStr : String) : String :=
  decoderType ++ " Decoder: Expected raw value to be " ++ expected ++ " but got: " ++ rawStr ++ "."

/-- The inner `decode` of `createDecoder` (src/src/index.ts lines 57-70).
`dflt = none` embeds construction with zero arguments
(`arguments.length === 1` false, strict); `dflt = some d` embeds
construction with exactly one argument `d` (which may itself be
`undefined`): the arity flag, not the argument value, is what the
`Option` records. -/
def createDecode (cb : Cb) (errorMsg : JsVal → String) (isValid : JsVal → Bool)
    (p : JsVal → JsVal) (dflt : Option JsVal) (raw : JsVal) : Res JsVal :=
  if isValid raw = false then
    match dflt with
    | some d => Res.ok [] d
    | none => Res.bind (callCb cb (errorMsg raw)) (fun _ => Res.ok [] JsVal.vUndefined)
  else
    Res.ok [] (p raw)

/-- `booleanConfig` descriptor: error message. -/
def booleanErrorMsg (raw : JsVal) : String := errorFmt "Boolean" "a boolean" (jsString raw)

/-- `booleanConfig` descriptor:
`['true', 'false', '1', '0', 'null', 'undefined'].indexOf(String(raw)) > -1`. -/
def booleanIsValid (raw : JsVal) : Bool :=
  ["true", "false", "1", "0", "null", "undefined"].contains (jsString raw)

/-- `booleanConfig` descriptor:
`raw === true || raw === 'true' || Number(raw) === 1`. -/
def booleanParse (raw : JsVal) : JsVal :=
  JsVal.vBool (jsStrictEq raw (JsVal.vBool true) || jsStrictEq raw (JsVal.vStr "true")
    || jsToNumber raw == some 1)

/-- The boolean decoder, as instantiated by `booleanConfig`. -/
def booleanDecode (cb : Cb) (dflt : Option JsVal) : JsVal → Res JsVal :=
  createDecode cb booleanErrorMsg booleanIsValid booleanParse dflt

/-- `numberConfig` descriptor: error message. -/
def numberErrorMsg (raw : JsVal) : String := errorFmt "Number" "a number" (jsString raw)

/-- `numberConfig` descriptor: `!isNaN(Number(String(raw)))`. -/
def numberIsValid (raw : JsVal) : Bool := (strToNumber (jsString raw)).isSome

/-- `numberConfig` descriptor: `Number(raw)`. -/
def numberParse (raw : JsVal) : JsVal := JsVal.vNum (jsToNumber raw)

/-- The number decoder, as instantiated by `numberConfig`. -/
def numberDecode (cb : Cb) (dflt : Option JsVal) : JsVal → Res JsVal :=
  createDecode cb numberErrorMsg numberIsValid numberParse dflt

/-- `stringConfig` descriptor: error message. -/
def stringErrorMsg (raw : JsVal) : String := errorFmt "String" "a string" (jsString raw)

/-- `stringConfig` descriptor:
`['boolean', 'number', 'string'].indexOf(typeof raw) > -1`. -/
def stringIsValid (raw : JsVal) : Bool :=
  ["boolean", "number", "string"].contains (typeofJs raw)

/-- `stringConfig` descriptor: `String(raw)`. -/
def stringParse (raw : JsVal) : JsVal := JsVal.vStr (jsString raw)

/-- The string decoder, as instantiated by `stringConfig`. -/
def stringDecode (cb : Cb) (dflt : Option JsVal) : JsVal → Res JsVal :=
  createDecode cb stringErrorMsg stringIsValid stringParse dflt

/-- `decodeLiteral` of `literalOfConfig` (src/src/index.ts lines 114-126):
`if (raw !== literalValue) { strict or default } return raw;`. -/
def decodeLiteral (cb : Cb) (literalValue : JsVal) (dflt : Option JsVal) (raw : JsVal) : Res JsVal :=
  if jsStrictEq raw literalValue = false then
    match dflt with
    | some d => Res.ok [] d
    | none =>
      Res.bind
        (callCb cb (errorFmt "Literal"
          (typeofJs literalValue ++ ":" ++ jsString literalValue)
          (typeofJs raw ++ ":" ++ jsString raw)))
        (fun _ => Res.ok [] JsVal.vUndefined)
  else
    Res.ok [] raw

/-- `raw.map(decoder)`: the item decoder runs on every element in order;
an exception thrown by an item stops the traversal and propagates. -/
def mapDecoder (d : JsVal → Res JsVal) : List JsVal → Res (List JsVal)
  | [] => Res.ok [] []
  | x :: xs =>
    Res.bind (d x) (fun v => Res.bind (mapDecoder d xs) (fun vs => Res.ok [] (v :: vs)))

/-- `decodeArray` of `arrayConfig` (src/src/index.ts lines 27-36):
`if (!Array.isArray(raw)) { strict or default } return raw.map(decoder);`. -/
def decodeArray (cb : Cb) (decoder : JsVal → Res JsVal) (dflt : Option JsVal) (raw : JsVal) : Res JsVal :=
  match raw with
  | JsVal.vArr xs => Res.bind (mapDecoder decoder xs) (fun vs => Res.ok [] (JsVal.vArr vs))
  | _ =>
    match dflt with
    | some d => Res.ok [] d
    | none =>
      Res.bind (callCb cb (errorFmt "Array" "an array" (jsString raw)))
        (fun _ => Res.ok [] JsVal.vUndefined)

/-- The field mapping given to `object`: output key, raw source key, and
the field decoder, in `Object.keys(map)` (insertion) order. -/
abbrev ObjMap : Type := List (String × String × (JsVal → Res JsVal))

/-- `raw[key]` property read.  On `null` or `undefined` the host raises a
TypeError; on objects a missing key reads as `undefined`; arrays are
indexable by decimal keys; other primitives read as `undefined`. -/
def getProp (raw : JsVal) (key : String) : Res JsVal :=
  match raw with
  | JsVal.vNull => Res.ex [] (Exc.hostTypeError key)
  | JsVal.vUndefined => Res.ex [] (Exc.hostTypeError key)
  | JsVal.vObj fields =>
    match fields.lookup key with
    | some v => Res.ok [] v
    | none => Res.ok [] JsVal.vUndefined
  | JsVal.vArr xs =>
    match key.toNat? with
    | some i => Res.ok [] (xs.getD i JsVal.vUndefined)
    | none => Res.ok [] JsVal.vUndefined
  | _ => Res.ok [] JsVal.vUndefined

/-- The `Object.keys(map).reduce` body of `decodeObject`
(src/src/index.ts lines 152-161): for each output key in mapping order,
read `raw[rawKey]`, run the field decoder on it, and extend the
accumulated record with the output key. -/
def decodeFields : ObjMap → JsVal → Res (List (String × JsVal))
  | [], _ => Res.ok [] []
  | (key, rawKey, d) :: rest, raw =>
    Res.bind (getProp raw rawKey) (fun v =>
      Res.bind (d v) (fun x =>
        Res.bind (decodeFields rest raw) (fun out =>
          Res.ok [] ((key, x) :: out))))

/-- `decodeObject` of `objectConfig` (src/src/index.ts lines 144-162):
`if (typeof raw !== 'object') { strict or default }` then the reduce. -/
def decodeObject (cb : Cb) (mp : ObjMap) (dflt : Option JsVal) (raw : JsVal) : Res JsVal :=
  if typeofJs raw ≠ "object" then
    match dflt with
    | some d => Res.ok [] d
    | none =>
      Res.bind (callCb cb (errorFmt "Object" "an object" (jsString raw)))
        (fun _ => Res.ok [] JsVal.vUndefined)
  else
    Res.bind (decodeFields mp raw) (fun out => Res.ok [] (JsVal.vObj out))

/-- `pipe` (src/src/index.ts lines 173-189):
`allDecoders.reduce((memo, decoder) => decoder(memo), raw)`. -/
def pipeDecode (ds : List (JsVal → Res JsVal)) (raw : JsVal) : Res JsVal :=
  ds.foldl (fun memo d => Res.bind memo d) (Res.ok [] raw)

/-- The composition stated by the specification for `pipe`: feed the raw
input to the first decoder, each output becomes the next raw input, the
last output is returned. -/
def chainSpec : List (JsVal → Res JsVal) → JsVal → Res JsVal
  | [] => fun raw => Res.ok [] raw
  | d :: ds => fun raw => Res.bind (d raw) (chainSpec ds)

theorem Res.ex_bind {α β : Type} (cs : List String) (e : Exc) (f : α → Res β) :
    Res.bind (Res.ex cs e) f = Res.ex cs e := rfl

theorem Res.nil_bind {α β : Type} (v : α) (f : α → Res β) :
    Res.bind (Res.ok [] v) f = f v := by
  cases hfv : f v <;> simp [Res.bind, hfv]

theorem Res.ok_bind_ok {α β : Type} (cs : List String) (v : α) (f : α → Res β)
    (cs2 : List String) (w : β) (h : f v = Res.ok cs2 w) :
    Res.bind (Res.ok cs v) f = Res.ok (cs ++ cs2) w := by
  simp [Res.bind, h]

theorem Res.ok_bind_ex {α β : Type} (cs : List String) (v : α) (f : α → Res β)
    (cs2 : List String) (e : Exc) (h : f v = Res.ex cs2 e) :
    Res.bind (Res.ok cs v) f = Res.ex (cs ++ cs2) e := by
  simp [Res.bind, h]

theorem Res.bind_ok_inv {α β : Type} {m : Res α} {f : α → Res β} {cs : List String} {w : β}
    (h : Res.bind m f = Res.ok cs w) :
    ∃ cs1 v cs2, m = Res.ok cs1 v ∧ f v = Res.ok cs2 w ∧ cs = cs1 ++ cs2 := by
  cases m with
  | ex cs1 e =>
    rw [Res.ex_bind] at h
    exact Res.noConfusion h
  | ok cs1 v =>
    cases hf : f v with
    | ok cs2 w2 =>
      rw [Res.ok_bind_ok cs1 v f cs2 w2 hf] at h
      injection h with h1 h2
      subst h1
      subst h2
      exact ⟨cs1, v, cs2, rfl, hf, rfl⟩
    | ex cs2 e =>
      rw [Res.ok_bind_ex cs1 v f cs2 e hf] at h
      exact Res.noConfusion h

theorem Res.bind_ok_nil {α : Type} (m : Res α) :
    Res.bind m (fun v => Res.ok [] v) = m := by
  cases m <;> simp [Res.bind]

theorem Res.bind_assoc {α β γ : Type} (m : Res α) (f : α → Res β) (g : β → Res γ) :
    Res.bind (Res.bind m f) g = Res.bind m (fun v => Res.bind (f v) g) := by
  cases m with
  | ex cs e => rfl
  | ok cs v =>
    cases hf : f v with
    | ex cs2 e => simp [Res.bind, hf]
    | ok cs2 w =>
      cases hg : g w <;> simp [Res.bind, hf, hg]

theorem createDecode_valid (cb : Cb) (em : JsVal → String) (iv : JsVal → Bool)
    (p : JsVal → JsVal) (dflt : Option JsVal) (raw : JsVal) (h : iv raw = true) :
    createDecode cb em iv p dflt raw = Res.ok [] (p raw) := by
  simp [createDecode, h]

theorem createDecode_invalid_default (cb : Cb) (em : JsVal → String) (iv : JsVal → Bool)
    (p : JsVal → JsVal) (dv : JsVal) (raw : JsVal) (h : iv raw = false) :
    createDecode cb em iv p (some dv) raw = Res.ok [] dv := by
  simp [createDecode, h]

theorem createDecode_strict_invalid (cb : Cb) (em : JsVal → String) (iv : JsVal → Bool)
    (p : JsVal → JsVal) (raw : JsVal) (h : iv raw = false) :
    createDecode cb em iv p none raw
      = Res.bind (callCb cb (em raw)) (fun _ => Res.ok [] JsVal.vUndefined) := by
  simp [createDecode, h]

theorem decodeArray_nonarray_default (cb : Cb) (d : JsVal → Res JsVal) (dv : JsVal)
    (raw : JsVal) (h : ∀ xs, raw ≠ JsVal.vArr xs) :
    decodeArray cb d (some dv) raw = Res.ok [] dv := by
  cases raw <;> first | rfl | exact absurd rfl (h _)

theorem decodeObject_nonobject_default (cb : Cb) (mp : ObjMap) (dv : JsVal)
    (raw : JsVal) (h : typeofJs raw ≠ "object") :
    decodeObject cb mp (some dv) raw = Res.ok [] dv := by
  simp [decodeObject, h]

theorem decodeLiteral_ne_default (cb : Cb) (lit : JsVal) (dv : JsVal)
    (raw : JsVal) (h : jsStrictEq raw lit = false) :
    decodeLiteral cb lit (some dv) raw = Res.ok [] dv := by
  simp [decodeLiteral, h]

theorem getProp_obj (fs : List (String × JsVal)) (k : String) :
    getProp (JsVal.vObj fs) k = Res.ok [] ((fs.lookup k).getD JsVal.vUndefined) := by
  cases h : fs.lookup k <;> simp [getProp, h]

theorem decodeFields_keys (fs : List (String × JsVal)) :
    ∀ (mp : ObjMap) (cs : List String) (out : List (String × JsVal)),
      decodeFields mp (JsVal.vObj fs) = Res.ok cs out →
      out.map Prod.fst = mp.map (fun e => e.1) := by
  intro mp
  induction mp with
  | nil =>
    intro cs out h
    simp only [decodeFields] at h
    injection h with h1 h2
    subst h2
    rfl
  | cons entry rest ih =>
    obtain ⟨key, rawKey, d⟩ := entry
    intro cs out h
    simp only [decodeFields, getProp_obj, Res.nil_bind] at h
    obtain ⟨cs1, v, cs2, hd, hk, hcs⟩ := Res.bind_ok_inv h
    obtain ⟨cs3, o, cs4, hrest, hlast, hcs2⟩ := Res.bind_ok_inv hk
    simp only [Res.ok.injEq] at hlast
    obtain ⟨hl1, hl2⟩ := hlast
    subst hl2
    simp [ih cs3 o hrest]

theorem mapDecoder_spec (d : JsVal → Res JsVal) :
    ∀ (xs : List JsVal) (cs : List String) (vs : List JsVal),
      mapDecoder d xs = Res.ok cs vs →
      vs.length = xs.length ∧
      ∀ i, i < xs.length →
        ∃ cs2, d (xs.getD i JsVal.vUndefined) = Res.ok cs2 (vs.getD i JsVal.vUndefined) := by
  intro xs
  induction xs with
  | nil =>
    intro cs vs h
    simp only [mapDecoder] at h
    injection h with h1 h2
    subst h2
    exact ⟨rfl, fun i hi => absurd hi (by simp)⟩
  | cons x xs ih =>
    intro cs vs h
    simp only [mapDecoder] at h
    obtain ⟨cs1, v, cs2, hd, hk, hcs⟩ := Res.bind_ok_inv h
    obtain ⟨cs3, vs2, cs4, hrest, hlast, hcs2⟩ := Res.bind_ok_inv hk
    simp only [Res.ok.injEq] at hlast
    obtain ⟨hl1, hl2⟩ := hlast
    subst hl2
    obtain ⟨hlen, hidx⟩ := ih cs3 vs2 hrest
    refine ⟨by simp [hlen], ?_⟩
    intro i hi
    cases i with
    | zero => exact ⟨cs1, by simpa using hd⟩
    | succ j =>
      have hj : j < xs.length := Nat.lt_of_succ_lt_succ (by simpa using hi)
      obtain ⟨cs5, h5⟩ := hidx j hj
      exact ⟨cs5, by simpa using h5⟩

theorem pipe_foldl_chain (ds : List (JsVal → Res JsVal)) :
    ∀ m : Res JsVal,
      ds.foldl (fun memo d => Res.bind memo d) m = Res.bind m (chainSpec ds) := by
  induction ds with
  | nil =>
    intro m
    simp only [List.foldl_nil, chainSpec]
    exact (Res.bind_ok_nil m).symm
  | cons d ds ih =>
    intro m
    rw [List.foldl_cons, ih (Res.bind m d), Res.bind_assoc]
    rfl

/-- Claim C1, evaluated on the code at the failing input: running
`array(number())` on `['b']` under the default configuration propagates
the item decoder's own error unchanged.  The callback receives exactly
the leaf message `Number Decoder: Expected raw value to be a number but
got: b.` and the thrown error carries that same message, with no
`Array Decoder: Item ...` framing added by the combinator. -/
theorem array_item_failure_propagates_unwrapped :
    decodeArray defaultCb (numberDecode defaultCb none) none (JsVal.vArr [JsVal.vStr "b"])
      = Res.ex ["Number Decoder: Expected raw value to be a number but got: b."]
          (Exc.err "Number Decoder: Expected raw value to be a number but got: b.") := rfl

/-- Claim C2, evaluated on the code at the failing input: running
`object({aaa: ['AAA', number()]})` on `{AAA: 'x'}` under the default
configuration propagates the field decoder's own error unchanged.  The
thrown error carries only the leaf message, with no
`Object Decoder: Attempted to decode property ...` framing added. -/
theorem object_field_failure_propagates_unwrapped :
    decodeObject defaultCb [("aaa", "AAA", numberDecode defaultCb none)] none
        (JsVal.vObj [("AAA", JsVal.vStr "x")])
      = Res.ex ["Number Decoder: Expected raw value to be a number but got: x."]
          (Exc.err "Number Decoder: Expected raw value to be a number but got: x.") := rfl

/-- Claim C3: construction arity alone selects strict versus defaulting
behavior.  A decoder constructed with one explicit argument equal to
`undefined` (`some JsVal.vUndefined`, as opposed to the zero-argument
`none`) behaves as defaulting on every invalid raw input: it returns
`undefined` verbatim with no error-callback invocation, for the generic
factory, the array combinator, the object combinator and the literal
decoder alike. -/
theorem explicit_undefined_default_keeps_defaulting (cb : Cb) (em : JsVal → String)
    (iv : JsVal → Bool) (p : JsVal → JsVal) (d : JsVal → Res JsVal) (mp : ObjMap)
    (lit : JsVal) (raw : JsVal)
    (hinv : iv raw = false)
    (hnarr : ∀ xs, raw ≠ JsVal.vArr xs)
    (hnobj : typeofJs raw ≠ "object")
    (hnlit : jsStrictEq raw lit = false) :
    createDecode cb em iv p (some JsVal.vUndefined) raw = Res.ok [] JsVal.vUndefined
    ∧ decodeArray cb d (some JsVal.vUndefined) raw = Res.ok [] JsVal.vUndefined
    ∧ decodeObject cb mp (some JsVal.vUndefined) raw = Res.ok [] JsVal.vUndefined
    ∧ decodeLiteral cb lit (some JsVal.vUndefined) raw = Res.ok [] JsVal.vUndefined :=
  ⟨createDecode_invalid_default cb em iv p JsVal.vUndefined raw hinv,
   decodeArray_nonarray_default cb d JsVal.vUndefined raw hnarr,
   decodeObject_nonobject_default cb mp JsVal.vUndefined raw hnobj,
   decodeLiteral_ne_default cb lit JsVal.vUndefined raw hnlit⟩

/-- Witness for the C3 theorem at the concrete invalid raw input
`JsVal.vNum (some 7)`. -/
theorem explicit_undefined_default_keeps_defaulting_witness :
    createDecode defaultCb (fun _ => "m") (fun _ => false) (fun r => r)
        (some JsVal.vUndefined) (JsVal.vNum (some 7)) = Res.ok [] JsVal.vUndefined
    ∧ decodeArray defaultCb (fun r => Res.ok [] r) (some JsVal.vUndefined)
        (JsVal.vNum (some 7)) = Res.ok [] JsVal.vUndefined
    ∧ decodeObject defaultCb [] (some JsVal.vUndefined) (JsVal.vNum (some 7))
        = Res.ok [] JsVal.vUndefined
    ∧ decodeLiteral defaultCb (JsVal.vStr "q") (some JsVal.vUndefined) (JsVal.vNum (some 7))
        = Res.ok [] JsVal.vUndefined :=
  explicit_undefined_default_keeps_defaulting defaultCb (fun _ => "m") (fun _ => false)
    (fun r => r) (fun r => Res.ok [] r) [] (JsVal.vStr "q") (JsVal.vNum (some 7))
    rfl (fun _ h => JsVal.noConfusion h) (by decide) rfl

/-- Claim C4: a strict decoder (zero construction arguments) built from
`createDecoder`, on invalid raw input, invokes the configured error
callback exactly once with exactly the formatted message; if the
callback returns without throwing, the decode call returns `undefined`;
on valid raw input the callback is never invoked and the parsed value is
returned. -/
theorem strict_decode_callback_exactly_once (cb : Cb) (em : JsVal → String)
    (iv : JsVal → Bool) (p : JsVal → JsVal) (raw : JsVal) :
    (iv raw = false → Res.calls (createDecode cb em iv p none raw) = [em raw])
    ∧ (iv raw = false → cb (em raw) = none →
        createDecode cb em iv p none raw = Res.ok [em raw] JsVal.vUndefined)
    ∧ (iv raw = true → createDecode cb em iv p none raw = Res.ok [] (p raw)) := by
  refine ⟨fun h => ?_, fun h hcb => ?_, fun h => createDecode_valid cb em iv p none raw h⟩
  · rw [createDecode_strict_invalid cb em iv p raw h]
    cases hc : cb (em raw) <;> simp [callCb, Res.bind, Res.calls, hc]
  · rw [createDecode_strict_invalid cb em iv p raw h]
    simp [callCb, Res.bind, hcb]

/-- Witness for the C4 theorem: a non-throwing callback and an
always-invalid descriptor on input `JsVal.vStr "z"`, plus the valid case. -/
theorem strict_decode_callback_exactly_once_witness :
    Res.calls (createDecode (fun _ => none) (fun _ => "boom") (fun _ => false)
        (fun r => r) none (JsVal.vStr "z")) = ["boom"]
    ∧ createDecode (fun _ => none) (fun _ => "boom") (fun _ => false) (fun r => r)
        none (JsVal.vStr "z") = Res.ok ["boom"] JsVal.vUndefined
    ∧ createDecode (fun _ => none) (fun _ => "boom") (fun _ => true) (fun r => r)
        none (JsVal.vStr "z") = Res.ok [] (JsVal.vStr "z") :=
  ⟨(strict_decode_callback_exactly_once (fun _ => none) (fun _ => "boom") (fun _ => false)
      (fun r => r) (JsVal.vStr "z")).1 rfl,
   (strict_decode_callback_exactly_once (fun _ => none) (fun _ => "boom") (fun _ => false)
      (fun r => r) (JsVal.vStr "z")).2.1 rfl rfl,
   (strict_decode_callback_exactly_once (fun _ => none) (fun _ => "boom") (fun _ => true)
      (fun r => r) (JsVal.vStr "z")).2.2 rfl⟩

/-- Claim C5 counterexample: `pipe(number(), string(), literalOf(10))`
applied to the raw string `'10'` does not return the value `10`; it
throws the literal decoder's error (the intermediate `string()` stage
yields the string `'10'`, which is not strictly equal to the number
`10`). -/
theorem pipe_literal_on_ten_counterexample :
    pipeDecode [numberDecode defaultCb none, stringDecode defaultCb none,
        decodeLiteral defaultCb (JsVal.vNum (some 10)) none] (JsVal.vStr "10")
      = Res.ex ["Literal Decoder: Expected raw value to be number:10 but got: string:10."]
          (Exc.err "Literal Decoder: Expected raw value to be number:10 but got: string:10.") := rfl

/-- Claim C5, amended: `pipe(number(), string(), literalOf(10))` applied
to `'10'` fails at the literal decoder stage with the literal decoder's
message, and applied to `'11'` likewise fails at the literal decoder
stage; in both cases the message raised is the literal decoder's, not an
earlier stage's. -/
theorem pipe_number_string_literal_fails_at_literal_stage :
    pipeDecode [numberDecode defaultCb none, stringDecode defaultCb none,
        decodeLiteral defaultCb (JsVal.vNum (some 10)) none] (JsVal.vStr "10")
      = Res.ex ["Literal Decoder: Expected raw value to be number:10 but got: string:10."]
          (Exc.err "Literal Decoder: Expected raw value to be number:10 but got: string:10.")
    ∧ pipeDecode [numberDecode defaultCb none, stringDecode defaultCb none,
        decodeLiteral defaultCb (JsVal.vNum (some 10)) none] (JsVal.vStr "11")
      = Res.ex ["Literal Decoder: Expected raw value to be number:10 but got: string:11."]
          (Exc.err "Literal Decoder: Expected raw value to be number:10 but got: string:11.") :=
  ⟨rfl, rfl⟩

/-- Claim C6: the boolean decoder, strict or defaulting and under any
configuration, maps each of `true`, `'true'`, `1`, `'1'` to `true` and
each of `false`, `'false'`, `0`, `'0'`, `null`, `undefined` to `false`,
never invoking the error callback (the call list is empty). -/
theorem boolean_truth_table (cb : Cb) (dflt : Option JsVal) :
    booleanDecode cb dflt (JsVal.vBool true) = Res.ok [] (JsVal.vBool true)
    ∧ booleanDecode cb dflt (JsVal.vStr "true") = Res.ok [] (JsVal.vBool true)
    ∧ booleanDecode cb dflt (JsVal.vNum (some 1)) = Res.ok [] (JsVal.vBool true)
    ∧ booleanDecode cb dflt (JsVal.vStr "1") = Res.ok [] (JsVal.vBool true)
    ∧ booleanDecode cb dflt (JsVal.vBool false) = Res.ok [] (JsVal.vBool false)
    ∧ booleanDecode cb dflt (JsVal.vStr "false") = Res.ok [] (JsVal.vBool false)
    ∧ booleanDecode cb dflt (JsVal.vNum (some 0)) = Res.ok [] (JsVal.vBool false)
    ∧ booleanDecode cb dflt (JsVal.vStr "0") = Res.ok [] (JsVal.vBool false)
    ∧ booleanDecode cb dflt JsVal.vNull = Res.ok [] (JsVal.vBool false)
    ∧ booleanDecode cb dflt JsVal.vUndefined = Res.ok [] (JsVal.vBool false) :=
  ⟨createDecode_valid cb booleanErrorMsg booleanIsValid booleanParse dflt _ rfl,
   createDecode_valid cb booleanErrorMsg booleanIsValid booleanParse dflt _ rfl,
   createDecode_valid cb booleanErrorMsg booleanIsValid booleanParse dflt _ rfl,
   createDecode_valid cb booleanErrorMsg booleanIsValid booleanParse dflt _ rfl,
   createDecode_valid cb booleanErrorMsg booleanIsValid booleanParse dflt _ rfl,
   createDecode_valid cb booleanErrorMsg booleanIsValid booleanParse dflt _ rfl,
   createDecode_valid cb booleanErrorMsg booleanIsValid booleanParse dflt _ rfl,
   createDecode_valid cb booleanErrorMsg booleanIsValid booleanParse dflt _ rfl,
   createDecode_valid cb booleanErrorMsg booleanIsValid booleanParse dflt _ rfl,
   createDecode_valid cb booleanErrorMsg booleanIsValid booleanParse dflt _ rfl⟩

/-- Claim C7: on an object-like raw input, the decoded record's key list
is exactly the mapping's key list (keys of the raw object outside the
mapping are ignored); and a mapping entry whose raw source key is absent
from the raw object applies its field decoder to `undefined`. -/
theorem object_result_keys_exact (cb : Cb) (mp : ObjMap) (fs : List (String × JsVal))
    (cs : List String) (out : List (String × JsVal))
    (key rawKey : String) (d : JsVal → Res JsVal) (rest : ObjMap)
    (h1 : decodeObject cb mp none (JsVal.vObj fs) = Res.ok cs (JsVal.vObj out))
    (h2 : fs.lookup rawKey = none) :
    out.map Prod.fst = mp.map (fun e => e.1)
    ∧ decodeFields ((key, rawKey, d) :: rest) (JsVal.vObj fs)
        = Res.bind (d JsVal.vUndefined)
            (fun x => Res.bind (decodeFields rest (JsVal.vObj fs))
              (fun o => Res.ok [] ((key, x) :: o))) := by
  constructor
  · rw [decodeObject, if_neg (fun hne => hne rfl)] at h1
    obtain ⟨cs1, o, cs2, hfld, hlast, hcs⟩ := Res.bind_ok_inv h1
    simp only [Res.ok.injEq, JsVal.vObj.injEq] at hlast
    obtain ⟨hl1, hl2⟩ := hlast
    subst hl2
    exact decodeFields_keys fs mp cs1 _ hfld
  · simp only [decodeFields, getProp_obj, h2, Option.getD_none, Res.nil_bind]

/-- Witness for the C7 theorem: the round-trip
`object({a: ['A', number()]})({A: '5'})` yields exactly the key `a`, and
a field mapped to the absent raw key `B` feeds `undefined` to its
decoder. -/
theorem object_result_keys_exact_witness :
    ([("a", JsVal.vNum (some 5))] : List (String × JsVal)).map Prod.fst
        = ([("a", "A", numberDecode defaultCb none)] : ObjMap).map (fun e => e.1)
    ∧ decodeFields [("b", "B", numberDecode defaultCb none)] (JsVal.vObj [("A", JsVal.vStr "5")])
        = Res.bind (numberDecode defaultCb none JsVal.vUndefined)
            (fun x => Res.bind (decodeFields [] (JsVal.vObj [("A", JsVal.vStr "5")]))
              (fun o => Res.ok [] (("b", x) :: o))) :=
  object_result_keys_exact defaultCb [("a", "A", numberDecode defaultCb none)]
    [("A", JsVal.vStr "5")] [] [("a", JsVal.vNum (some 5))] "b" "B"
    (numberDecode defaultCb none) [] rfl rfl

/-- Claim C8: on a raw array, `array(d)` produces (when it returns
normally) an array of the same length whose element at every index `i`
is the value produced by `d` on the raw element at index `i`: order and
length are preserved and no element is skipped or reordered. -/
theorem array_preserves_order_and_length (cb : Cb) (d : JsVal → Res JsVal)
    (dflt : Option JsVal) (xs : List JsVal) (cs : List String) (out : JsVal)
    (h : decodeArray cb d dflt (JsVal.vArr xs) = Res.ok cs out) :
    ∃ vs, out = JsVal.vArr vs ∧ vs.length = xs.length ∧
      ∀ i, i < xs.length →
        ∃ cs2, d (xs.getD i JsVal.vUndefined) = Res.ok cs2 (vs.getD i JsVal.vUndefined) := by
  simp only [decodeArray] at h
  obtain ⟨cs1, vs, cs2, hmap, hlast, hcs⟩ := Res.bind_ok_inv h
  simp only [Res.ok.injEq] at hlast
  obtain ⟨hl1, hl2⟩ := hlast
  subst hl2
  obtain ⟨hlen, hidx⟩ := mapDecoder_spec d xs cs1 vs hmap
  exact ⟨vs, rfl, hlen, hidx⟩

/-- Witness for the C8 theorem: `array(number())` on `['1', '2']`. -/
theorem array_preserves_order_and_length_witness :
    ∃ vs, JsVal.vArr [JsVal.vNum (some 1), JsVal.vNum (some 2)] = JsVal.vArr vs
      ∧ vs.length = ([JsVal.vStr "1", JsVal.vStr "2"] : List JsVal).length
      ∧ ∀ i, i < ([JsVal.vStr "1", JsVal.vStr "2"] : List JsVal).length →
          ∃ cs2, numberDecode defaultCb none
              (([JsVal.vStr "1", JsVal.vStr "2"] : List JsVal).getD i JsVal.vUndefined)
            = Res.ok cs2 (vs.getD i JsVal.vUndefined) :=
  array_preserves_order_and_length defaultCb (numberDecode defaultCb none) none
    [JsVal.vStr "1", JsVal.vStr "2"] []
    (JsVal.vArr [JsVal.vNum (some 1), JsVal.vNum (some 2)]) rfl

/-- Claim C9: `pipe` is sequential composition: the raw input goes to the
first decoder, each stage's output becomes the next stage's raw input,
and the final stage's output is returned; with a single decoder `pipe`
is the identity wrapper around it. -/
theorem pipe_sequential_composition (d : JsVal → Res JsVal)
    (ds : List (JsVal → Res JsVal)) (raw : JsVal) :
    pipeDecode (d :: ds) raw = chainSpec (d :: ds) raw
    ∧ pipeDecode [d] raw = d raw := by
  constructor
  · rw [pipeDecode, List.foldl_cons, pipe_foldl_chain ds (Res.bind (Res.ok [] raw) d),
      Res.nil_bind]
    rfl
  · rw [pipeDecode, List.foldl_cons, List.foldl_nil, Res.nil_bind]

/-- Claim C10: `null` passes the object combinator's non-object guard
(`typeof null` is `'object'`), so a strict (or defaulting) object decoder
applied to `null` neither invokes the error callback with the formatted
Object Decoder message nor returns a declared default: the first field
lookup on `null` raises a host-level TypeError (the call list is empty
and the propagated exception is the host error, not a library `Error`). -/
theorem object_null_guard_not_fired (cb : Cb) (dflt : Option JsVal)
    (key rawKey : String) (d : JsVal → Res JsVal) (rest : ObjMap) :
    typeofJs JsVal.vNull = "object"
    ∧ decodeObject cb ((key, rawKey, d) :: rest) dflt JsVal.vNull
        = Res.ex [] (Exc.hostTypeError rawKey) := by
  refine ⟨rfl, ?_⟩
  rw [decodeObject.eq_def, if_neg (fun hne => hne rfl)]
  rfl
